import Mathlib

/-!
Shallow embedding of the `vintage_story_mod_api` Rust client library
(`src/api.rs`, `src/models.rs`, `src/error.rs`) and proofs about it.

Modelling conventions:
* `u32` fields are modelled as `Nat` and `i64` as `Int`; no arithmetic is
  performed on them anywhere in the library, so overflow is irrelevant.
* `reqwest::Error` payloads are modelled as a `String` message; the library
  never inspects them.
* The HTTP transport is an oracle: for each endpoint, a function from the
  global fetch counter of the client (and request parameter, where present) to the
  already-JSON-decoded response, or a transport/decode error.  The `?`
  operators on `send()` and `json()` in the Rust code both surface as the
  `Except.error` case of the oracle.
* The two mutex-guarded cache slots of the client object become ordinary
  fields of a state record that every method threads explicitly; the fetch counter
  counts HTTP round trips (a failing round trip still counts as one).
* A Rust panic (`unwrap()` of `None`, out-of-bounds index) has no return
  value; at the points where the source can panic, the result type in the embedding
  carries an `Option` whose `none` marks exactly the panicking executions.
-/

namespace VintageStory

/-- Embedding of `ApiError` from `src/error.rs`: HTTP-level failure or unexpected message. -/
inductive ApiError where
  | Http : String → ApiError
  | Unexpected : String → ApiError
deriving DecidableEq, Repr

/-- Embedding of `SimpleMod` from `src/models.rs`. -/
structure SimpleMod where
  mod_id : Nat
  asset_id : Nat
  downloads : Nat
  follows : Nat
  trending_points : Nat
  comments : Nat
  name : String
  summary : Option String
  mod_id_strs : List String
  author : String
  url_alias : Option String
  side : String
  mod_type : String
  logo : Option String
  tags : List String
  last_released : String
deriving DecidableEq, Repr

/-- Embedding of `DetailedModRelease` from `src/models.rs` (the `string_or_null`
deserializer already normalises `filename` to an optional string). -/
structure DetailedModRelease where
  release_id : Nat
  main_file : String
  filename : Option String
  file_id : Option Nat
  downloads : Nat
  tags : List String
  mod_id_str : Option String
  mod_version : String
  created : String
  changelog : Option String
deriving DecidableEq, Repr

/-- Embedding of `DetailedModScreenshot` from `src/models.rs`. -/
structure DetailedModScreenshot where
  file_id : Nat
  main_file : String
  filename : String
  thumbnail_filename : String
  created : String
deriving DecidableEq, Repr

/-- Embedding of `DetailedMod` from `src/models.rs`. -/
structure DetailedMod where
  mod_id : Nat
  asset_id : Nat
  name : String
  text : String
  author : String
  url_alias : Option String
  logo_filename : Option String
  logo_file : Option String
  logo_file_db : Option String
  homepage_url : Option String
  source_code_url : Option String
  trailer_video_url : Option String
  issue_tracker_url : Option String
  wiki_url : Option String
  downloads : Nat
  follows : Nat
  trending_points : Nat
  comments : Nat
  side : String
  mod_type : String
  created : String
  last_released : String
  last_modified : String
  tags : List String
  releases : List DetailedModRelease
  screenshots : List DetailedModScreenshot
deriving DecidableEq, Repr

/-- Embedding of `Tag` from `src/models.rs`. -/
structure Tag where
  tag_id : Nat
  name : String
  color : String
deriving DecidableEq, Repr

/-- Embedding of `Author` from `src/models.rs`. -/
structure Author where
  userid : Nat
  name : Option String
deriving DecidableEq, Repr

/-- Embedding of `GameVersion` from `src/models.rs` (`tagid` is `i64`). -/
structure GameVersion where
  tag_id : Int
  name : String
  color : String
deriving DecidableEq, Repr

/-- Embedding of `Comment` from `src/models.rs`. -/
structure Comment where
  comment_id : Nat
  asset_id : Nat
  user_id : Nat
  text : String
  created : String
  last_modified : String
deriving DecidableEq, Repr

/-- Response envelope for `/mods` (`ModsResponse`). -/
structure ModsResponse where
  status_code : String
  mods : List SimpleMod
deriving DecidableEq, Repr

/-- Response envelope for `/mod/(id)` (`ModResponse`). -/
structure ModResponse where
  status_code : String
  mod_info : DetailedMod
deriving DecidableEq, Repr

/-- Response envelope for `/tags` (`TagsResponse`). -/
structure TagsResponse where
  status_code : String
  tags : List Tag
deriving DecidableEq, Repr

/-- Response envelope for `/authors` (`AuthorsResponse`). -/
structure AuthorsResponse where
  status_code : String
  authors : List Author
deriving DecidableEq, Repr

/-- Response envelope for `/gameversions` (`GameVersionsResponse`). -/
structure GameVersionsResponse where
  status_code : String
  game_versions : List GameVersion
deriving DecidableEq, Repr

/-- Response envelope for `/comments/(assetid)` (`CommentsResponse`). -/
structure CommentsResponse where
  status_code : String
  comments : List Comment
deriving DecidableEq, Repr

/-- Embedding of `DetailedModRelease::get_filename` from `src/models.rs`:
`self.filename.clone().unwrap_or(self.mod_id_str.clone().map(append ".zip").unwrap_or(self.main_file.clone()))`. -/
def DetailedModRelease.get_filename (r : DetailedModRelease) : String :=
  r.filename.getD ((r.mod_id_str.map (fun str => str ++ ".zip")).getD r.main_file)

/-- The mutable fields of `VintageStoryModDbApi` from `src/api.rs`: the
enable-cache flag fixed at construction, and the two mutex-guarded slots. -/
structure VintageStoryModDbApi where
  enable_cache : Bool
  mods_cache : Option (List SimpleMod)
  authors_cache : Option (List Author)
deriving DecidableEq, Repr

/-- Embedding of `VintageStoryModDbApi::new`. -/
def VintageStoryModDbApi.new (enable_cache : Bool) : VintageStoryModDbApi :=
  { enable_cache := enable_cache, mods_cache := none, authors_cache := none }

/-- HTTP transport oracle.  Each field gives the decoded response to the
request issued when the global fetch counter has the given value. -/
structure Transport where
  modsEp : Nat → Except ApiError ModsResponse
  authorsEp : Nat → Except ApiError AuthorsResponse
  tagsEp : Nat → Except ApiError TagsResponse
  gameVersionsEp : Nat → Except ApiError GameVersionsResponse
  commentsEp : Nat → Nat → Except ApiError CommentsResponse
  modEp : String → Nat → Except ApiError ModResponse

/-- Observable client state: the api object plus the number of HTTP round
trips performed so far (transport call-count instrumentation). -/
structure Sys where
  api : VintageStoryModDbApi
  fetches : Nat
deriving DecidableEq, Repr

/-- The live-fetch tail of `get_mods` (everything after the cache check):
fetch `/mods`, decode, store into the slot when caching is enabled. -/
def get_mods_fetch (t : Transport) (s : Sys) : Except ApiError (List SimpleMod) × Sys :=
  match t.modsEp s.fetches with
  | .error e => (.error e, { s with fetches := s.fetches + 1 })
  | .ok mods_response =>
      (.ok mods_response.mods,
       { api := { s.api with
                   mods_cache := if s.api.enable_cache then some mods_response.mods
                                 else s.api.mods_cache },
         fetches := s.fetches + 1 })

/-- Embedding of `get_mods` from `src/api.rs`: cached clone when caching is enabled and the
slot is populated, otherwise a live fetch. -/
def get_mods (t : Transport) (s : Sys) : Except ApiError (List SimpleMod) × Sys :=
  if s.api.enable_cache then
    match s.api.mods_cache with
    | some cached => (.ok cached, s)
    | none => get_mods_fetch t s
  else get_mods_fetch t s

/-- Embedding of `refresh_mods_cache` from `src/api.rs`: unconditionally fetch `/mods` and
overwrite the slot (even when caching is disabled). -/
def refresh_mods_cache (t : Transport) (s : Sys) : Except ApiError Unit × Sys :=
  match t.modsEp s.fetches with
  | .error e => (.error e, { s with fetches := s.fetches + 1 })
  | .ok mods_response =>
      (.ok (),
       { api := { s.api with mods_cache := some mods_response.mods },
         fetches := s.fetches + 1 })

/-- The live-fetch tail of `get_authors`. -/
def get_authors_fetch (t : Transport) (s : Sys) : Except ApiError (List Author) × Sys :=
  match t.authorsEp s.fetches with
  | .error e => (.error e, { s with fetches := s.fetches + 1 })
  | .ok authors_response =>
      (.ok authors_response.authors,
       { api := { s.api with
                   authors_cache := if s.api.enable_cache then some authors_response.authors
                                    else s.api.authors_cache },
         fetches := s.fetches + 1 })

/-- Embedding of `get_authors` from `src/api.rs` (mirror of `get_mods`). -/
def get_authors (t : Transport) (s : Sys) : Except ApiError (List Author) × Sys :=
  if s.api.enable_cache then
    match s.api.authors_cache with
    | some cached => (.ok cached, s)
    | none => get_authors_fetch t s
  else get_authors_fetch t s

/-- Embedding of `refresh_authors_cache` from `src/api.rs`. -/
def refresh_authors_cache (t : Transport) (s : Sys) : Except ApiError Unit × Sys :=
  match t.authorsEp s.fetches with
  | .error e => (.error e, { s with fetches := s.fetches + 1 })
  | .ok authors_response =>
      (.ok (),
       { api := { s.api with authors_cache := some authors_response.authors },
         fetches := s.fetches + 1 })

/-- Embedding of `get_tags` from `src/api.rs`: always live, never cached. -/
def get_tags (t : Transport) (s : Sys) : Except ApiError (List Tag) × Sys :=
  match t.tagsEp s.fetches with
  | .error e => (.error e, { s with fetches := s.fetches + 1 })
  | .ok r => (.ok r.tags, { s with fetches := s.fetches + 1 })

/-- Embedding of `get_game_versions` from `src/api.rs`: always live, never cached. -/
def get_game_versions (t : Transport) (s : Sys) : Except ApiError (List GameVersion) × Sys :=
  match t.gameVersionsEp s.fetches with
  | .error e => (.error e, { s with fetches := s.fetches + 1 })
  | .ok r => (.ok r.game_versions, { s with fetches := s.fetches + 1 })

/-- Embedding of `get_comments` from `src/api.rs`: always live, never cached. -/
def get_comments (t : Transport) (s : Sys) (asset_id : Nat) : Except ApiError (List Comment) × Sys :=
  match t.commentsEp asset_id s.fetches with
  | .error e => (.error e, { s with fetches := s.fetches + 1 })
  | .ok r => (.ok r.comments, { s with fetches := s.fetches + 1 })

/-- Embedding of `get_mod_from_alias` from `src/api.rs`: always live. -/
def get_mod_from_alias (t : Transport) (s : Sys) (al : String) : Except ApiError DetailedMod × Sys :=
  match t.modEp al s.fetches with
  | .error e => (.error e, { s with fetches := s.fetches + 1 })
  | .ok r => (.ok r.mod_info, { s with fetches := s.fetches + 1 })

/-- Embedding of `get_mod` from `src/api.rs`: delegates to `get_mod_from_alias` on the
decimal rendering of the numeric id. -/
def get_mod (t : Transport) (s : Sys) (mod_id : Nat) : Except ApiError DetailedMod × Sys :=
  get_mod_from_alias t s (toString mod_id)

/-- Embedding of `clear_mods_cache` from `src/api.rs`. -/
def clear_mods_cache (s : Sys) : Sys :=
  { s with api := { s.api with mods_cache := none } }

/-- Embedding of `clear_authors_cache` from `src/api.rs`. -/
def clear_authors_cache (s : Sys) : Sys :=
  { s with api := { s.api with authors_cache := none } }

/-- Embedding of `clear_all_caches` from `src/api.rs`. -/
def clear_all_caches (s : Sys) : Sys :=
  clear_authors_cache (clear_mods_cache s)

/-- Rust `str::contains(pat)`: `pat` occurs as a contiguous substring. -/
def strContains (s pat : String) : Bool :=
  decide (pat.data <:+: s.data)

/-- The loop guard of `get_most_recent_stable_game_version`: the version name
contains "pre", "rc" or "dev" (case-sensitive substring match). -/
def isFlaggedVersionName (name : String) : Bool :=
  strContains name "pre" || strContains name "rc" || strContains name "dev"

/-- The backward while-loop of `get_most_recent_stable_game_version`, run on
the reversed collection: `dif` starts at 1 so the scan inspects
`versions[len-1], versions[len-2], ...`, which is exactly a walk down
`versions.reverse`; when the reversed list is exhausted the Rust index
`versions[versions.len() - dif]` is out of range, which is the `none`
(panicking) case here. -/
def stable_scan : List GameVersion → Option GameVersion
  | [] => none
  | v :: rest => if isFlaggedVersionName v.name then stable_scan rest else some v

/-- Embedding of `get_most_recent_stable_game_version` from `src/api.rs`.  The inner
`Option` is `none` exactly on the executions where the Rust loop indexes out
of range and panics. -/
def get_most_recent_stable_game_version (t : Transport) (s : Sys) :
    Except ApiError (Option GameVersion) × Sys :=
  let p := get_game_versions t s
  match p.1 with
  | .error e => (.error e, p.2)
  | .ok versions => (.ok (stable_scan versions.reverse), p.2)

/-- The release-selection loop of `get_most_recent_release_from_alias_with_version`:
`iter.next().unwrap()` panics on an empty list (the `none` case); otherwise the
head is returned if its tag list contains the version, else the first matching
release of the tail, else the head (`current` is never reassigned). -/
def select_release (releases : List DetailedModRelease) (version : String) :
    Option DetailedModRelease :=
  match releases with
  | [] => none
  | first :: rest =>
      if first.tags.contains version then some first
      else
        match rest.find? (fun r => r.tags.contains version) with
        | some r => some r
        | none => some first

/-- Embedding of `get_most_recent_release_from_alias_with_version` from `src/api.rs`.
The inner `Option` is `none` exactly on the executions that panic. -/
def get_most_recent_release_from_alias_with_version (t : Transport) (s : Sys)
    (al version : String) : Except ApiError (Option DetailedModRelease) × Sys :=
  let p := get_mod_from_alias t s al
  match p.1 with
  | .error e => (.error e, p.2)
  | .ok mod_info => (.ok (select_release mod_info.releases version), p.2)

/-- Embedding of `get_most_recent_release_with_version` from `src/api.rs`: delegates on the
decimal rendering of the numeric id. -/
def get_most_recent_release_with_version (t : Transport) (s : Sys)
    (mod_id : Nat) (version : String) : Except ApiError (Option DetailedModRelease) × Sys :=
  get_most_recent_release_from_alias_with_version t s (toString mod_id) version

/-- Embedding of `get_most_recent_release_from_alias` from `src/api.rs`: resolve the most
recent stable game version, then delegate; a panic inside the version
resolution propagates as `none`. -/
def get_most_recent_release_from_alias (t : Transport) (s : Sys) (al : String) :
    Except ApiError (Option DetailedModRelease) × Sys :=
  let p := get_most_recent_stable_game_version t s
  match p.1 with
  | .error e => (.error e, p.2)
  | .ok none => (.ok none, p.2)
  | .ok (some v) => get_most_recent_release_from_alias_with_version t p.2 al v.name

/-- Embedding of `get_most_recent_release` from `src/api.rs`. -/
def get_most_recent_release (t : Transport) (s : Sys) (mod_id : Nat) :
    Except ApiError (Option DetailedModRelease) × Sys :=
  get_most_recent_release_from_alias t s (toString mod_id)

/-- Rust `char::is_ascii_whitespace`: space, tab, newline, form feed, CR. -/
def isAsciiWhitespaceRust (c : Char) : Bool :=
  c = ' ' || c = '\t' || c = '\n' || c.toNat = 12 || c = '\r'

/-- Rust `char::is_ascii_punctuation`: the four ASCII punctuation ranges. -/
def isAsciiPunctuationRust (c : Char) : Bool :=
  (33 ≤ c.toNat && c.toNat ≤ 47) || (58 ≤ c.toNat && c.toNat ≤ 64) ||
  (91 ≤ c.toNat && c.toNat ≤ 96) || (123 ≤ c.toNat && c.toNat ≤ 126)

/-- Embedding of the call `s.replace(|c| c.is_ascii_whitespace() || c.is_ascii_punctuation(), "")`:
delete every ASCII whitespace or punctuation character. -/
def strip_ws_punct (s : String) : String :=
  ⟨s.data.filter (fun c => !(isAsciiWhitespaceRust c || isAsciiPunctuationRust c))⟩

/-- Rust `u8::to_ascii_lowercase` lifted to characters. -/
def asciiLowerChar (c : Char) : Char :=
  if 65 ≤ c.toNat ∧ c.toNat ≤ 90 then Char.ofNat (c.toNat + 32) else c

/-- Rust `str::eq_ignore_ascii_case`. -/
def eq_ignore_ascii_case (a b : String) : Bool :=
  a.data.map asciiLowerChar == b.data.map asciiLowerChar

/-- Embedding of `search_name` from `src/api.rs`: cache-aware fetch, then client-side
filter by stripped, ASCII-case-insensitive name equality. -/
def search_name (t : Transport) (s : Sys) (query : String) :
    Except ApiError (List SimpleMod) × Sys :=
  let p := get_mods t s
  match p.1 with
  | .error e => (.error e, p.2)
  | .ok mods =>
      (.ok (mods.filter (fun m =>
         eq_ignore_ascii_case (strip_ws_punct m.name) (strip_ws_punct query))), p.2)

/-- Model of the rand crate function `choose` on a slice: `none` on an empty collection,
otherwise the element at the (uniformly chosen) index `k % length`. -/
def list_choose (l : List α) (k : Nat) : Option α :=
  l.get? (k % l.length)

/-- Embedding of `get_random_mod` from `src/api.rs` (the rand-feature module), with the
random draw supplied as `k`. -/
def get_random_mod (t : Transport) (s : Sys) (k : Nat) :
    Except ApiError DetailedMod × Sys :=
  let p := get_mods t s
  match p.1 with
  | .error e => (.error e, p.2)
  | .ok mods =>
      match list_choose mods k with
      | none => (.error (.Unexpected "No mods found"), p.2)
      | some selected => get_mod t p.2 selected.mod_id

/-- Embedding of `get_random_tag` from `src/api.rs`. -/
def get_random_tag (t : Transport) (s : Sys) (k : Nat) : Except ApiError Tag × Sys :=
  let p := get_tags t s
  match p.1 with
  | .error e => (.error e, p.2)
  | .ok tags =>
      match list_choose tags k with
      | none => (.error (.Unexpected "No tags found"), p.2)
      | some selected => (.ok selected, p.2)

/-- Embedding of `get_random_author` from `src/api.rs`. -/
def get_random_author (t : Transport) (s : Sys) (k : Nat) : Except ApiError Author × Sys :=
  let p := get_authors t s
  match p.1 with
  | .error e => (.error e, p.2)
  | .ok authors =>
      match list_choose authors k with
      | none => (.error (.Unexpected "No authors found"), p.2)
      | some selected => (.ok selected, p.2)

/-- Embedding of `get_random_game_version` from `src/api.rs`. -/
def get_random_game_version (t : Transport) (s : Sys) (k : Nat) :
    Except ApiError GameVersion × Sys :=
  let p := get_game_versions t s
  match p.1 with
  | .error e => (.error e, p.2)
  | .ok versions =>
      match list_choose versions k with
      | none => (.error (.Unexpected "No versions found"), p.2)
      | some selected => (.ok selected, p.2)

/-- Embedding of `get_random_comment` from `src/api.rs`: `Ok(None)` on an empty comment
list, otherwise a drawn element (`choose` cannot fail on a nonempty list, so
the Rust `unwrap()` there never panics). -/
def get_random_comment (t : Transport) (s : Sys) (asset_id k : Nat) :
    Except ApiError (Option Comment) × Sys :=
  let p := get_comments t s asset_id
  match p.1 with
  | .error e => (.error e, p.2)
  | .ok comments =>
      if comments.isEmpty then (.ok none, p.2)
      else (.ok (list_choose comments k), p.2)

/-! ### Concrete fixtures used by the witnesses -/

/-- Transport on which every request fails (network down). -/
def t0 : Transport :=
  { modsEp := fun _ => .error (.Http "down"),
    authorsEp := fun _ => .error (.Http "down"),
    tagsEp := fun _ => .error (.Http "down"),
    gameVersionsEp := fun _ => .error (.Http "down"),
    commentsEp := fun _ _ => .error (.Http "down"),
    modEp := fun _ _ => .error (.Http "down") }

/-- Transport on which every collection endpoint succeeds with an empty
payload. -/
def tEmpty : Transport :=
  { modsEp := fun _ => .ok ⟨"200", []⟩,
    authorsEp := fun _ => .ok ⟨"200", []⟩,
    tagsEp := fun _ => .ok ⟨"200", []⟩,
    gameVersionsEp := fun _ => .ok ⟨"200", []⟩,
    commentsEp := fun _ _ => .ok ⟨"200", []⟩,
    modEp := fun _ _ => .error (.Http "down") }

/-- Fresh cache-disabled client. -/
def s0 : Sys := { api := VintageStoryModDbApi.new false, fetches := 0 }

/-- Fresh cache-enabled client. -/
def s0c : Sys := { api := VintageStoryModDbApi.new true, fetches := 0 }

/-- Cache-enabled client whose mods slot already holds a snapshot. -/
def sCached : Sys :=
  { api := { enable_cache := true, mods_cache := some [], authors_cache := none },
    fetches := 0 }

/-- The game-version collection of the worked example in the spec, oldest first. -/
def gvC1 : List GameVersion :=
  [⟨1, "1.0-rc1", "c"⟩, ⟨2, "1.0", "c"⟩, ⟨3, "1.1-pre", "c"⟩]

/-- Transport serving `gvC1` from `/gameversions`. -/
def tC1 : Transport :=
  { t0 with gameVersionsEp := fun _ => .ok ⟨"200", gvC1⟩ }

/-- Transport serving a single flagged game version. -/
def tC2 : Transport :=
  { t0 with gameVersionsEp := fun _ => .ok ⟨"200", [⟨1, "1.0-rc1", "c"⟩]⟩ }

/-- Release with no explicit filename but a mod-id string. -/
def relFoo : DetailedModRelease :=
  { release_id := 1, main_file := "x.zip", filename := none, file_id := none,
    downloads := 0, tags := [], mod_id_str := some "foo", mod_version := "1.0.0",
    created := "", changelog := none }

/-- Same release with an explicit filename. -/
def relBar : DetailedModRelease := { relFoo with filename := some "bar.zip" }

/-! ### Helper lemmas -/

/-- The embedded backward loop is exactly a first-match search. -/
theorem stable_scan_eq_find (l : List GameVersion) :
    stable_scan l = l.find? (fun v => !isFlaggedVersionName v.name) := by
  induction l with
  | nil => rfl
  | cons v rest ih =>
      by_cases h : isFlaggedVersionName v.name
      · rw [stable_scan, if_pos h, ih, List.find?_cons_of_neg]
        simp [h]
      · rw [stable_scan, if_neg h, List.find?_cons_of_pos]
        simp [h]

/-! ### Claims -/

/-- C1: for every game-version collection containing at least one version
whose name contains none of "pre", "rc", "dev", the method returns the last
such element (the first stable one found scanning from the end backward), so
it never returns a flagged version; and on the collection
["1.0-rc1", "1.0", "1.1-pre"] (oldest first) it returns the version named
"1.0". -/
theorem c1_stable_version_is_last_stable (t : Transport) (s : Sys)
    (versions : List GameVersion)
    (hok : (get_game_versions t s).1 = .ok versions)
    (hstable : ∃ v ∈ versions, isFlaggedVersionName v.name = false) :
    (∃ v, (get_most_recent_stable_game_version t s).1 = .ok (some v)
       ∧ isFlaggedVersionName v.name = false
       ∧ versions.reverse.find? (fun u => !isFlaggedVersionName u.name) = some v)
    ∧ (get_most_recent_stable_game_version tC1 s0).1 = .ok (some ⟨2, "1.0", "c"⟩) := by
  constructor
  · have hsome : (versions.reverse.find? (fun u => !isFlaggedVersionName u.name)).isSome := by
      rw [List.find?_isSome]
      obtain ⟨v, hv, hflag⟩ := hstable
      exact ⟨v, List.mem_reverse.mpr hv, by simp [hflag]⟩
    obtain ⟨v, hfind⟩ := Option.isSome_iff_exists.mp hsome
    refine ⟨v, ?_, ?_, hfind⟩
    · rw [get_most_recent_stable_game_version]
      simp only [hok]
      rw [stable_scan_eq_find, hfind]
    · have := List.find?_some hfind
      simpa using this
  · rfl

/-- C1 witness: the theorem applied to the worked collection of the spec. -/
theorem c1_stable_version_is_last_stable_witness :
    (∃ v, (get_most_recent_stable_game_version tC1 s0).1 = .ok (some v)
       ∧ isFlaggedVersionName v.name = false
       ∧ gvC1.reverse.find? (fun u => !isFlaggedVersionName u.name) = some v)
    ∧ (get_most_recent_stable_game_version tC1 s0).1 = .ok (some ⟨2, "1.0", "c"⟩) :=
  c1_stable_version_is_last_stable tC1 s0 gvC1 rfl
    ⟨⟨2, "1.0", "c"⟩, by decide, by decide⟩

/-- C2: the backward scan reaches its out-of-range fault (the panic, modelled
as the inner `none`) exactly when every version in the collection is flagged
with "pre", "rc" or "dev" — including the empty collection. -/
theorem c2_scan_faults_iff_no_stable (t : Transport) (s : Sys)
    (versions : List GameVersion)
    (hok : (get_game_versions t s).1 = .ok versions) :
    (get_most_recent_stable_game_version t s).1 = .ok none
      ↔ ∀ v ∈ versions, isFlaggedVersionName v.name = true := by
  rw [get_most_recent_stable_game_version]
  simp only [hok]
  rw [stable_scan_eq_find]
  simp [List.find?_eq_none, List.mem_reverse]

/-- C2 witness: on a collection whose only version is flagged, the method
reaches the fault branch. -/
theorem c2_scan_faults_iff_no_stable_witness :
    (get_most_recent_stable_game_version tC2 s0).1 = .ok none :=
  (c2_scan_faults_iff_no_stable tC2 s0 [⟨1, "1.0-rc1", "c"⟩] rfl).mpr (by decide)

/-- C6: `get_filename` returns the explicit filename when present, otherwise
the mod-id string with ".zip" appended when present, otherwise the main file
reference, in that priority order. -/
theorem c6_get_filename_precedence (r : DetailedModRelease) :
    (∀ f, r.filename = some f → r.get_filename = f)
    ∧ (r.filename = none → ∀ m, r.mod_id_str = some m → r.get_filename = m ++ ".zip")
    ∧ (r.filename = none → r.mod_id_str = none → r.get_filename = r.main_file) :=
  ⟨fun f hf => by rw [DetailedModRelease.get_filename, hf]; rfl,
   fun hf m hm => by rw [DetailedModRelease.get_filename, hf, hm]; rfl,
   fun hf hm => by rw [DetailedModRelease.get_filename, hf, hm]; rfl⟩

/-- C6 witness: the two worked examples of the spec — filename=None,
mod_id_str=Some "foo", main_file="x.zip" gives "foo.zip"; filename=Some
"bar.zip" gives "bar.zip" with the other fields unchanged. -/
theorem c6_get_filename_precedence_witness :
    relFoo.get_filename = "foo.zip" ∧ relBar.get_filename = "bar.zip" :=
  ⟨(c6_get_filename_precedence relFoo).2.1 rfl "foo" rfl,
   (c6_get_filename_precedence relBar).1 "bar.zip" rfl⟩

/-- Branch equation: enabled cache, populated slot — `get_mods` serves the
clone and leaves the state untouched. -/
theorem get_mods_cache_hit (t : Transport) (s : Sys) (cached : List SimpleMod)
    (hc : s.api.enable_cache = true) (hm : s.api.mods_cache = some cached) :
    get_mods t s = (.ok cached, s) := by
  simp [get_mods, hc, hm]

/-- Branch equation: enabled cache, empty slot — `get_mods` falls through to
the live fetch. -/
theorem get_mods_cache_miss (t : Transport) (s : Sys)
    (hc : s.api.enable_cache = true) (hm : s.api.mods_cache = none) :
    get_mods t s = get_mods_fetch t s := by
  simp [get_mods, hc, hm]

/-- Branch equation: caching disabled — `get_mods` always performs the live
fetch. -/
theorem get_mods_no_cache (t : Transport) (s : Sys)
    (hc : s.api.enable_cache = false) :
    get_mods t s = get_mods_fetch t s := by
  simp [get_mods, hc]

/-- Branch equation: the live fetch fails. -/
theorem get_mods_fetch_err (t : Transport) (s : Sys) (e : ApiError)
    (ht : t.modsEp s.fetches = .error e) :
    get_mods_fetch t s = (.error e, { s with fetches := s.fetches + 1 }) := by
  simp [get_mods_fetch, ht]

/-- Branch equation: the live fetch succeeds. -/
theorem get_mods_fetch_ok (t : Transport) (s : Sys) (resp : ModsResponse)
    (ht : t.modsEp s.fetches = .ok resp) :
    get_mods_fetch t s
      = (.ok resp.mods,
         { api := { s.api with
                     mods_cache := if s.api.enable_cache then some resp.mods
                                   else s.api.mods_cache },
           fetches := s.fetches + 1 }) := by
  simp [get_mods_fetch, ht]

/-- Branch equation: the refresh fetch fails. -/
theorem refresh_mods_cache_err (t : Transport) (s : Sys) (e : ApiError)
    (ht : t.modsEp s.fetches = .error e) :
    refresh_mods_cache t s = (.error e, { s with fetches := s.fetches + 1 }) := by
  simp [refresh_mods_cache, ht]

/-- Branch equation: the refresh fetch succeeds. -/
theorem refresh_mods_cache_ok (t : Transport) (s : Sys) (resp : ModsResponse)
    (ht : t.modsEp s.fetches = .ok resp) :
    refresh_mods_cache t s
      = (.ok (), { api := { s.api with mods_cache := some resp.mods },
                   fetches := s.fetches + 1 }) := by
  simp [refresh_mods_cache, ht]

/-- Branch equations for the authors mirror. -/
theorem get_authors_cache_hit (t : Transport) (s : Sys) (cached : List Author)
    (hc : s.api.enable_cache = true) (hm : s.api.authors_cache = some cached) :
    get_authors t s = (.ok cached, s) := by
  simp [get_authors, hc, hm]

theorem get_authors_cache_miss (t : Transport) (s : Sys)
    (hc : s.api.enable_cache = true) (hm : s.api.authors_cache = none) :
    get_authors t s = get_authors_fetch t s := by
  simp [get_authors, hc, hm]

theorem get_authors_no_cache (t : Transport) (s : Sys)
    (hc : s.api.enable_cache = false) :
    get_authors t s = get_authors_fetch t s := by
  simp [get_authors, hc]

theorem get_authors_fetch_err (t : Transport) (s : Sys) (e : ApiError)
    (ht : t.authorsEp s.fetches = .error e) :
    get_authors_fetch t s = (.error e, { s with fetches := s.fetches + 1 }) := by
  simp [get_authors_fetch, ht]

theorem get_authors_fetch_ok (t : Transport) (s : Sys) (resp : AuthorsResponse)
    (ht : t.authorsEp s.fetches = .ok resp) :
    get_authors_fetch t s
      = (.ok resp.authors,
         { api := { s.api with
                     authors_cache := if s.api.enable_cache then some resp.authors
                                      else s.api.authors_cache },
           fetches := s.fetches + 1 }) := by
  simp [get_authors_fetch, ht]

theorem refresh_authors_cache_err (t : Transport) (s : Sys) (e : ApiError)
    (ht : t.authorsEp s.fetches = .error e) :
    refresh_authors_cache t s = (.error e, { s with fetches := s.fetches + 1 }) := by
  simp [refresh_authors_cache, ht]

/-- A successful `get_mods` on a cache-enabled client leaves the flag set and
the mods slot holding exactly the returned collection. -/
theorem get_mods_ok_cache_state (t : Transport) (s : Sys) (mods : List SimpleMod)
    (hc : s.api.enable_cache = true)
    (h1 : (get_mods t s).1 = .ok mods) :
    (get_mods t s).2.api.enable_cache = true
    ∧ (get_mods t s).2.api.mods_cache = some mods := by
  cases hm : s.api.mods_cache with
  | some cached =>
      rw [get_mods_cache_hit t s cached hc hm] at h1 ⊢
      simp only [Except.ok.injEq] at h1
      exact ⟨hc, by rw [hm, h1]⟩
  | none =>
      rw [get_mods_cache_miss t s hc hm] at h1 ⊢
      cases ht : t.modsEp s.fetches with
      | error e =>
          rw [get_mods_fetch_err t s e ht] at h1
          exact absurd h1 (by simp)
      | ok resp =>
          rw [get_mods_fetch_ok t s resp ht] at h1 ⊢
          simp only [Except.ok.injEq] at h1
          exact ⟨hc, by simp [hc, h1]⟩

/-- C3: on a cache-enabled client, if a `get_mods` call returns a collection,
an immediately following `get_mods` (no refresh or clear in between) returns
the identical collection and performs no network fetch: the transport call
counter is unchanged by the second call. -/
theorem c3_second_get_mods_is_cache_hit (t : Transport) (s : Sys)
    (mods : List SimpleMod)
    (hc : s.api.enable_cache = true)
    (h1 : (get_mods t s).1 = .ok mods) :
    (get_mods t (get_mods t s).2).1 = .ok mods
    ∧ (get_mods t (get_mods t s).2).2.fetches = (get_mods t s).2.fetches := by
  obtain ⟨he, hslot⟩ := get_mods_ok_cache_state t s mods hc h1
  constructor
  · rw [get_mods]
    simp [he, hslot]
  · rw [get_mods]
    simp [he, hslot]

/-- C3 witness: a fresh cache-enabled client against a transport serving an
empty mods payload — the second call returns the same collection and leaves
the fetch counter untouched. -/
theorem c3_second_get_mods_is_cache_hit_witness :
    (get_mods tEmpty (get_mods tEmpty s0c).2).1 = .ok []
    ∧ (get_mods tEmpty (get_mods tEmpty s0c).2).2.fetches
        = (get_mods tEmpty s0c).2.fetches :=
  c3_second_get_mods_is_cache_hit tEmpty s0c [] rfl rfl

/-- C4: a successful `refresh_mods_cache` always performs the fetch and
overwrites the mods slot with the fresh collection, whether or not caching is
enabled (in particular it does not fail merely because caching is disabled);
a following `get_mods` then returns that fresh collection when caching is
enabled, and the result of the next live fetch when caching is disabled. -/
theorem c4_refresh_overwrites_and_get_mods_reflects (t : Transport) (s : Sys)
    (resp : ModsResponse)
    (hok : t.modsEp s.fetches = .ok resp) :
    (refresh_mods_cache t s).1 = .ok ()
    ∧ (refresh_mods_cache t s).2.fetches = s.fetches + 1
    ∧ (refresh_mods_cache t s).2.api.mods_cache = some resp.mods
    ∧ (s.api.enable_cache = true →
        (get_mods t (refresh_mods_cache t s).2).1 = .ok resp.mods)
    ∧ (s.api.enable_cache = false →
        ∀ resp2, t.modsEp (s.fetches + 1) = .ok resp2 →
          (get_mods t (refresh_mods_cache t s).2).1 = .ok resp2.mods) := by
  have hstate := refresh_mods_cache_ok t s resp hok
  refine ⟨by rw [hstate], by rw [hstate], by rw [hstate], ?_, ?_⟩
  · intro hc
    rw [hstate]
    exact congrArg Prod.fst
      (get_mods_cache_hit t
        { api := { s.api with mods_cache := some resp.mods }, fetches := s.fetches + 1 }
        resp.mods hc rfl)
  · intro hc resp2 hok2
    rw [hstate]
    exact congrArg Prod.fst
      ((get_mods_no_cache t
          { api := { s.api with mods_cache := some resp.mods }, fetches := s.fetches + 1 }
          hc).trans
       (get_mods_fetch_ok t
          { api := { s.api with mods_cache := some resp.mods }, fetches := s.fetches + 1 }
          resp2 hok2))

/-- C4 witness: on a cache-disabled client, the refresh succeeds and the
following `get_mods` reflects the live fetch. -/
theorem c4_refresh_overwrites_and_get_mods_reflects_witness :
    (refresh_mods_cache tEmpty s0).1 = .ok ()
    ∧ (get_mods tEmpty (refresh_mods_cache tEmpty s0).2).1 = .ok [] := by
  have h := c4_refresh_overwrites_and_get_mods_reflects tEmpty s0 ⟨"200", []⟩ rfl
  exact ⟨h.1, h.2.2.2.2 rfl ⟨"200", []⟩ rfl⟩

/-- C5: a failing call — `get_mods`, `refresh_mods_cache`, `get_authors` or
`refresh_authors_cache` — returns the error and leaves the whole api object
(both cache slots included) exactly as it was, so a previously cached mods
snapshot is still served by a subsequent cache-hit `get_mods`. -/
theorem c5_failure_leaves_caches_unchanged (t : Transport) (s : Sys) (e : ApiError) :
    ((get_mods t s).1 = .error e → (get_mods t s).2.api = s.api)
    ∧ ((refresh_mods_cache t s).1 = .error e → (refresh_mods_cache t s).2.api = s.api)
    ∧ ((get_authors t s).1 = .error e → (get_authors t s).2.api = s.api)
    ∧ ((refresh_authors_cache t s).1 = .error e → (refresh_authors_cache t s).2.api = s.api)
    ∧ ((refresh_mods_cache t s).1 = .error e → s.api.enable_cache = true →
        ∀ c, s.api.mods_cache = some c →
          (get_mods t (refresh_mods_cache t s).2).1 = .ok c) := by
  have hmodsfetch : (get_mods_fetch t s).1 = .error e →
      (get_mods_fetch t s).2.api = s.api := by
    intro h1
    cases ht : t.modsEp s.fetches with
    | error e2 => rw [get_mods_fetch_err t s e2 ht]
    | ok resp =>
        rw [get_mods_fetch_ok t s resp ht] at h1
        exact absurd h1 (by simp)
  have hauthorsfetch : (get_authors_fetch t s).1 = .error e →
      (get_authors_fetch t s).2.api = s.api := by
    intro h1
    cases ht : t.authorsEp s.fetches with
    | error e2 => rw [get_authors_fetch_err t s e2 ht]
    | ok resp =>
        rw [get_authors_fetch_ok t s resp ht] at h1
        exact absurd h1 (by simp)
  have hrefresh : (refresh_mods_cache t s).1 = .error e →
      refresh_mods_cache t s = (.error e, { s with fetches := s.fetches + 1 }) := by
    intro h1
    cases ht : t.modsEp s.fetches with
    | error e2 =>
        rw [refresh_mods_cache_err t s e2 ht] at h1 ⊢
        simp only [Except.error.injEq] at h1
        rw [h1]
    | ok resp =>
        rw [refresh_mods_cache_ok t s resp ht] at h1
        exact absurd h1 (by simp)
  refine ⟨?_, ?_, ?_, ?_, ?_⟩
  · intro h1
    by_cases hc : s.api.enable_cache
    · cases hm : s.api.mods_cache with
      | some cached =>
          rw [get_mods_cache_hit t s cached hc hm] at h1
          exact absurd h1 (by simp)
      | none =>
          rw [get_mods_cache_miss t s hc hm] at h1 ⊢
          exact hmodsfetch h1
    · rw [get_mods_no_cache t s (by simpa using hc)] at h1 ⊢
      exact hmodsfetch h1
  · intro h1
    rw [hrefresh h1]
  · intro h1
    by_cases hc : s.api.enable_cache
    · cases hm : s.api.authors_cache with
      | some cached =>
          rw [get_authors_cache_hit t s cached hc hm] at h1
          exact absurd h1 (by simp)
      | none =>
          rw [get_authors_cache_miss t s hc hm] at h1 ⊢
          exact hauthorsfetch h1
    · rw [get_authors_no_cache t s (by simpa using hc)] at h1 ⊢
      exact hauthorsfetch h1
  · intro h1
    cases ht : t.authorsEp s.fetches with
    | error e2 => rw [refresh_authors_cache_err t s e2 ht]
    | ok resp =>
        rw [refresh_authors_cache] at h1
        rw [ht] at h1
        exact absurd h1 (by simp)
  · intro h1 hc c hslot
    rw [hrefresh h1]
    exact congrArg Prod.fst
      (get_mods_cache_hit t { s with fetches := s.fetches + 1 } c hc hslot)

/-- C5 witness: against a dead transport, a failing refresh leaves the
populated cache intact and the next `get_mods` still serves the snapshot. -/
theorem c5_failure_leaves_caches_unchanged_witness :
    (refresh_mods_cache t0 sCached).2.api = sCached.api
    ∧ (get_mods t0 (refresh_mods_cache t0 sCached).2).1 = .ok [] := by
  have h := c5_failure_leaves_caches_unchanged t0 sCached (.Http "down")
  exact ⟨h.2.1 rfl, h.2.2.2.2 rfl rfl [] rfl⟩

/-- Detailed mod with an empty releases list. -/
def dmEmpty : DetailedMod :=
  { mod_id := 5, asset_id := 50, name := "empty mod", text := "", author := "a",
    url_alias := none, logo_filename := none, logo_file := none, logo_file_db := none,
    homepage_url := none, source_code_url := none, trailer_video_url := none,
    issue_tracker_url := none, wiki_url := none, downloads := 0, follows := 0,
    trending_points := 0, comments := 0, side := "both", mod_type := "mod",
    created := "", last_released := "", last_modified := "", tags := [],
    releases := [], screenshots := [] }

/-- Detailed mod whose single release carries no matching version tag. -/
def dm1 : DetailedMod := { dmEmpty with releases := [relFoo] }

/-- Transport serving `dm1` from the detailed-mod endpoint. -/
def tC7 : Transport := { t0 with modEp := fun _ _ => .ok ⟨"200", dm1⟩ }

/-- Transport serving a stable game version and a detailed mod with no
releases. -/
def tC10 : Transport :=
  { t0 with
    gameVersionsEp := fun _ => .ok ⟨"200", [⟨1, "1.0", "c"⟩]⟩,
    modEp := fun _ _ => .ok ⟨"200", dmEmpty⟩ }

/-- Stored mod named "my mod". -/
def smMyMod : SimpleMod :=
  { mod_id := 1, asset_id := 10, downloads := 0, follows := 0, trending_points := 0,
    comments := 0, name := "my mod", summary := none, mod_id_strs := [], author := "a",
    url_alias := none, side := "both", mod_type := "mod", logo := none, tags := [],
    last_released := "" }

/-- Transport serving only `smMyMod` from `/mods`. -/
def tC9 : Transport := { t0 with modsEp := fun _ => .ok ⟨"200", [smMyMod]⟩ }

/-- C7: when the non-empty releases list of the fetched mod has no release
whose tag list contains the version name, the method returns the first release as a
fallback rather than an error; when the tag list of some release does contain it,
the method returns the first such release in list order. -/
theorem c7_release_selection_first_match_or_fallback (t : Transport) (s : Sys)
    (al version : String) (info : DetailedMod)
    (first : DetailedModRelease) (rest : List DetailedModRelease)
    (hmod : (get_mod_from_alias t s al).1 = .ok info)
    (hrel : info.releases = first :: rest) :
    ((∀ r ∈ info.releases, r.tags.contains version = false) →
       (get_most_recent_release_from_alias_with_version t s al version).1
         = .ok (some first))
    ∧ (∀ r, info.releases.find? (fun q => q.tags.contains version) = some r →
       (get_most_recent_release_from_alias_with_version t s al version).1
         = .ok (some r)) := by
  have hred : (get_most_recent_release_from_alias_with_version t s al version).1
      = .ok (select_release info.releases version) := by
    rw [get_most_recent_release_from_alias_with_version]
    simp only [hmod]
  have hcons : select_release (first :: rest) version
      = if first.tags.contains version then some first
        else match rest.find? (fun r => r.tags.contains version) with
          | some r => some r
          | none => some first := rfl
  constructor
  · intro hall
    have hfirst : first.tags.contains version = false :=
      hall first (by rw [hrel]; exact List.mem_cons_self first rest)
    have hnone : rest.find? (fun r => r.tags.contains version) = none := by
      rw [List.find?_eq_none]
      intro r hr
      simpa using hall r (by rw [hrel]; exact List.mem_cons_of_mem first hr)
    rw [hred, hrel, hcons, if_neg (by simpa using hfirst), hnone]
  · intro r hfind
    rw [hrel] at hfind
    rw [hred, hrel, hcons]
    by_cases hf : first.tags.contains version
    · have hstep : (first :: rest).find? (fun q => q.tags.contains version)
          = some first := by
        rw [List.find?_cons_of_pos]
        exact hf
      rw [hstep] at hfind
      simp only [Option.some.injEq] at hfind
      rw [if_pos hf, hfind]
    · have hstep : (first :: rest).find? (fun q => q.tags.contains version)
          = rest.find? (fun q => q.tags.contains version) := by
        rw [List.find?_cons_of_neg]
        simpa using hf
      rw [hstep] at hfind
      rw [if_neg hf, hfind]

/-- C7 witness: a mod whose only release lacks the tag — the method falls
back to that first release instead of erroring. -/
theorem c7_release_selection_first_match_or_fallback_witness :
    (get_most_recent_release_from_alias_with_version tC7 s0 "m" "9.9").1
      = .ok (some relFoo) := by
  have h := c7_release_selection_first_match_or_fallback tC7 s0 "m" "9.9" dm1
    relFoo [] rfl rfl
  exact h.1 (by decide)

/-- C8: with an empty underlying collection, the random-selection operations
return the explicit unexpected-error variants for mods, tags, authors and
game versions, and `get_random_comment` returns an empty option (not an
error); none of them reaches an out-of-range access. -/
theorem c8_random_selection_on_empty (t : Transport) (s : Sys) (k asset_id : Nat) :
    ((get_mods t s).1 = .ok [] →
       (get_random_mod t s k).1 = .error (.Unexpected "No mods found"))
    ∧ ((get_tags t s).1 = .ok [] →
       (get_random_tag t s k).1 = .error (.Unexpected "No tags found"))
    ∧ ((get_authors t s).1 = .ok [] →
       (get_random_author t s k).1 = .error (.Unexpected "No authors found"))
    ∧ ((get_game_versions t s).1 = .ok [] →
       (get_random_game_version t s k).1 = .error (.Unexpected "No versions found"))
    ∧ ((get_comments t s asset_id).1 = .ok [] →
       (get_random_comment t s asset_id k).1 = .ok none) := by
  refine ⟨?_, ?_, ?_, ?_, ?_⟩
  · intro h
    rw [get_random_mod]
    simp [h, list_choose]
  · intro h
    rw [get_random_tag]
    simp [h, list_choose]
  · intro h
    rw [get_random_author]
    simp [h, list_choose]
  · intro h
    rw [get_random_game_version]
    simp [h, list_choose]
  · intro h
    rw [get_random_comment]
    simp [h]

/-- C8 witness: the five operations against a transport whose collections are
all empty. -/
theorem c8_random_selection_on_empty_witness :
    (get_random_mod tEmpty s0 0).1 = .error (.Unexpected "No mods found")
    ∧ (get_random_tag tEmpty s0 0).1 = .error (.Unexpected "No tags found")
    ∧ (get_random_author tEmpty s0 0).1 = .error (.Unexpected "No authors found")
    ∧ (get_random_game_version tEmpty s0 0).1 = .error (.Unexpected "No versions found")
    ∧ (get_random_comment tEmpty s0 7 0).1 = .ok none := by
  have h := c8_random_selection_on_empty tEmpty s0 0 7
  exact ⟨h.1 rfl, h.2.1 rfl, h.2.2.1 rfl, h.2.2.2.1 rfl, h.2.2.2.2 rfl⟩

/-- C9: `search_name` returns exactly the fetched mods whose name, stripped
of ASCII whitespace and punctuation, equals the identically stripped query
under ASCII-case-insensitive comparison; in particular the stripped
comparison accepts query "My Mod!" against the stored name "my mod". -/
theorem c9_search_name_stripped_equality (t : Transport) (s : Sys)
    (query : String) (mods : List SimpleMod)
    (h : (get_mods t s).1 = .ok mods) :
    (∃ res, (search_name t s query).1 = .ok res
       ∧ ∀ m, m ∈ res ↔ m ∈ mods ∧
           eq_ignore_ascii_case (strip_ws_punct m.name) (strip_ws_punct query) = true)
    ∧ eq_ignore_ascii_case (strip_ws_punct "My Mod!") (strip_ws_punct "my mod") = true := by
  constructor
  · refine ⟨mods.filter (fun m =>
        eq_ignore_ascii_case (strip_ws_punct m.name) (strip_ws_punct query)), ?_, ?_⟩
    · rw [search_name]
      simp only [h]
    · intro m
      exact List.mem_filter
  · decide

/-- C9 witness: searching "My Mod!" on a collection holding a mod named
"my mod" returns a collection containing that mod. -/
theorem c9_search_name_stripped_equality_witness :
    ∃ res, (search_name tC9 s0 "My Mod!").1 = .ok res ∧ smMyMod ∈ res := by
  have h := c9_search_name_stripped_equality tC9 s0 "My Mod!" [smMyMod] rfl
  obtain ⟨res, hres, hmem⟩ := h.1
  exact ⟨res, hres, (hmem smMyMod).mpr ⟨by decide, by decide⟩⟩

/-- C10: when the fetched detailed mod has an empty releases list,
`get_most_recent_release_from_alias_with_version` — and the three operations
that delegate to it — reaches the `unwrap` of a `None` first element (the
panic, modelled as the inner `none`) instead of returning an error. -/
theorem c10_empty_releases_panic (t : Transport) (s : Sys) (mod_id : Nat)
    (version : String) (info : DetailedMod)
    (hmod : (get_mod_from_alias t s (toString mod_id)).1 = .ok info)
    (hempty : info.releases = []) :
    (get_most_recent_release_from_alias_with_version t s (toString mod_id) version).1
      = .ok none
    ∧ (get_most_recent_release_with_version t s mod_id version).1 = .ok none
    ∧ (∀ v, (get_most_recent_stable_game_version t s).1 = .ok (some v) →
        (get_mod_from_alias t (get_most_recent_stable_game_version t s).2
           (toString mod_id)).1 = .ok info →
        (get_most_recent_release_from_alias t s (toString mod_id)).1 = .ok none)
    ∧ get_most_recent_release t s mod_id
        = get_most_recent_release_from_alias t s (toString mod_id) := by
  have h1 : (get_most_recent_release_from_alias_with_version t s (toString mod_id)
      version).1 = .ok none := by
    rw [get_most_recent_release_from_alias_with_version]
    simp only [hmod, hempty]
    rfl
  refine ⟨h1, h1, ?_, rfl⟩
  intro v hv hmod2
  rw [get_most_recent_release_from_alias]
  simp only [hv]
  rw [get_most_recent_release_from_alias_with_version]
  simp only [hmod2, hempty]
  rfl

/-- C10 witness: a mod with no releases faults through both delegating entry
points. -/
theorem c10_empty_releases_panic_witness :
    (get_most_recent_release_with_version tC10 s0 5 "1.0").1 = .ok none
    ∧ (get_most_recent_release tC10 s0 5).1 = .ok none := by
  have h := c10_empty_releases_panic tC10 s0 5 "1.0" dmEmpty rfl rfl
  refine ⟨h.2.1, ?_⟩
  have h3 := h.2.2.1 ⟨1, "1.0", "c"⟩ rfl rfl
  rw [h.2.2.2]
  exact h3

end VintageStory
